import Mathlib

/-!
Shallow embedding of the on-chain real-estate marketplace program
(`programs/real-estate-marketplace/src/lib.rs`).

Modelling conventions:
* `Pubkey` values (account addresses, mints, principals) are `Nat`.
* `u64` values are `Nat` together with the source's checked arithmetic:
  the source uses `checked_add` / `checked_sub` / `checked_mul` /
  `checked_div` everywhere it computes fees or counters, so no wrapping
  ever occurs and `Nat` plus explicit `< 2 ^ 64` guards is faithful.
* `i64` timestamps are `Int`.
* SPL token accounts are read through `TokenAccount.try_deserialize` in the
  source; here they are plain records.  `token::transfer` / `token::mint_to`
  CPIs are modelled on balances; a CPI failure is the `splTokenError` code
  (in the source such a failure propagates as a token-program error outside
  the program's own `ErrorCode` enum).
* Anchor events (`emit!`) carry no state and are not modelled.
-/

def U64_MOD : Nat := 2 ^ 64

/-- `u64::checked_add`. -/
def checked_add (a b : Nat) : Option Nat :=
  if a + b < U64_MOD then some (a + b) else none

/-- `u64::checked_sub`. -/
def checked_sub (a b : Nat) : Option Nat :=
  if b ≤ a then some (a - b) else none

/-- `u64::checked_mul`. -/
def checked_mul (a b : Nat) : Option Nat :=
  if a * b < U64_MOD then some (a * b) else none

/-- `u64::checked_div`: `None` exactly when the divisor is zero. -/
def checked_div (a b : Nat) : Option Nat :=
  if b = 0 then none else some (a / b)

/-- An SPL token account as the program reads it (mint, owner, amount). -/
structure TokenAccount where
  mint : Nat
  owner : Nat
  amount : Nat
deriving Repr, DecidableEq

/-- `token::transfer` CPI: moves `amt` from `src` to `dst`; fails on
insufficient source balance or destination overflow. -/
def spl_transfer (src dst : TokenAccount) (amt : Nat) :
    Option (TokenAccount × TokenAccount) :=
  if amt ≤ src.amount ∧ dst.amount + amt < U64_MOD then
    some ({ src with amount := src.amount - amt },
          { dst with amount := dst.amount + amt })
  else none

/-- `token::mint_to` CPI: credits `amt` to `acct`; fails on overflow. -/
def mint_to (acct : TokenAccount) (amt : Nat) : Option TokenAccount :=
  if acct.amount + amt < U64_MOD then
    some { acct with amount := acct.amount + amt }
  else none

/-- `OfferStatus` from the source. -/
inductive OfferStatus where
  | pending
  | accepted
  | rejected
  | completed
  | expired
deriving Repr, DecidableEq

/-- The program's `ErrorCode` enum (constructors the model reaches), plus
`splTokenError` for propagated token-program CPI failures. -/
inductive ErrorCode where
  | propertyIdTooLong
  | metadataUriTooLong
  | locationTooLong
  | categoryTooLong
  | invalidPrice
  | invalidOfferAmount
  | invalidExpirationTime
  | notPropertyOwner
  | propertyNotActive
  | cannotOfferOwnProperty
  | offerNotPending
  | offerExpired
  | offerNotAccepted
  | offerPropertyMismatch
  | notOfferBuyer
  | invalidTokenAccountMint
  | invalidTokenAccountOwner
  | invalidFeePercentage
  | notNFTOwner
  | arithmeticOverflow
  | unauthorizedFeeWithdrawal
  | insufficientFeeBalance
  | invalidFeeTokenAccount
  | invalidPaymentTokenMint
  | invalidNFTTokenAccount
  | splTokenError
deriving Repr, DecidableEq

/-- `Marketplace` account. -/
structure Marketplace where
  authority : Nat
  properties_count : Nat
  fee_percentage : Nat
  fee_token_mint : Nat
  total_fees : Nat
deriving Repr, DecidableEq

/-- `Property` account. -/
structure Property where
  marketplace : Nat
  owner : Nat
  property_id : String
  price : Nat
  metadata_uri : String
  location : String
  square_feet : Nat
  bedrooms : Nat
  bathrooms : Nat
  is_active : Bool
  created_at : Int
  updated_at : Int
  transaction_count : Nat
  nft_mint : Nat
  category : String
deriving Repr, DecidableEq

/-- `Offer` account.  Note: the source `Offer` struct has no `escrow`
field, and the program declares no `Escrow` account type anywhere. -/
structure Offer where
  buyer : Nat
  property : Nat
  amount : Nat
  status : OfferStatus
  created_at : Int
  updated_at : Int
  expiration_time : Int
deriving Repr, DecidableEq

/-- `TransactionHistory` account. -/
structure TransactionHistory where
  property : Nat
  seller : Nat
  buyer : Nat
  price : Nat
  timestamp : Int
  transaction_index : Nat
deriving Repr, DecidableEq

/-- `initialize_marketplace` (lib.rs lines 25-48): requires
`marketplace_fee ≤ 10000`, then creates the record with zeroed counters. -/
def initialize_marketplace (authority : Nat) (marketplace_fee : Nat)
    (fee_token_mint : Nat) : Except ErrorCode Marketplace :=
  if marketplace_fee ≤ 10000 then
    Except.ok { authority := authority
                properties_count := 0
                fee_percentage := marketplace_fee
                fee_token_mint := fee_token_mint
                total_fees := 0 }
  else Except.error .invalidFeePercentage

/-- `list_property` (lib.rs lines 50-163): length/price validation, manual
token-account validation, `mint_to` of 1 NFT, property creation, checked
increment of `properties_count`.  The `name`/`symbol` arguments only feed
the external Metaplex metadata CPI and carry no program state, and the
metadata CPI itself is external, so neither is modelled.  String lengths
use byte size, as Rust `String::len` does. -/
def list_property (marketplace : Marketplace) (marketplaceKey : Nat)
    (owner : Nat) (nft_mint_key : Nat) (owner_nft_account : TokenAccount)
    (property_id : String) (price : Nat) (metadata_uri : String)
    (location : String) (square_feet : Nat) (bedrooms : Nat)
    (bathrooms : Nat) (category : String) (now : Int) :
    Except ErrorCode (Marketplace × Property × TokenAccount) :=
  if property_id.utf8ByteSize ≤ 64 then
   if metadata_uri.utf8ByteSize ≤ 200 then
    if location.utf8ByteSize ≤ 50 then
     if 0 < price then
      if category.utf8ByteSize ≤ 32 then
       if owner_nft_account.mint = nft_mint_key then
        if owner_nft_account.owner = owner then
         match mint_to owner_nft_account 1 with
         | none => Except.error .splTokenError
         | some ona =>
           match checked_add marketplace.properties_count 1 with
           | none => Except.error .arithmeticOverflow
           | some pc =>
             Except.ok
               ({ marketplace with properties_count := pc },
                { marketplace := marketplaceKey
                  owner := owner
                  property_id := property_id
                  price := price
                  metadata_uri := metadata_uri
                  location := location
                  square_feet := square_feet
                  bedrooms := bedrooms
                  bathrooms := bathrooms
                  is_active := true
                  created_at := now
                  updated_at := now
                  transaction_count := 0
                  nft_mint := nft_mint_key
                  category := category },
                ona)
        else Except.error .invalidTokenAccountOwner
       else Except.error .invalidTokenAccountMint
      else Except.error .categoryTooLong
     else Except.error .invalidPrice
    else Except.error .locationTooLong
   else Except.error .metadataUriTooLong
  else Except.error .propertyIdTooLong

/-- Optional price update inside `update_property`. -/
def apply_price (p : Property) : Option Nat → Except ErrorCode Property
  | none => Except.ok p
  | some np =>
      if 0 < np then Except.ok { p with price := np }
      else Except.error .invalidPrice

/-- Optional metadata-URI update inside `update_property`. -/
def apply_metadata_uri (p : Property) :
    Option String → Except ErrorCode Property
  | none => Except.ok p
  | some u =>
      if u.utf8ByteSize ≤ 200 then Except.ok { p with metadata_uri := u }
      else Except.error .metadataUriTooLong

/-- Optional activity-flag update inside `update_property`. -/
def apply_is_active (p : Property) : Option Bool → Property
  | none => p
  | some b => { p with is_active := b }

/-- Optional category update inside `update_property`. -/
def apply_category (p : Property) :
    Option String → Except ErrorCode Property
  | none => Except.ok p
  | some c =>
      if c.utf8ByteSize ≤ 32 then Except.ok { p with category := c }
      else Except.error .categoryTooLong

/-- `update_property` (lib.rs lines 165-226): validates the owner's NFT
token account (mint, owner, amount == 1), applies only the supplied
optional fields, then unconditionally sets `updated_at` to the clock. -/
def update_property (property : Property) (owner : Nat)
    (owner_nft_account : TokenAccount) (price : Option Nat)
    (metadata_uri : Option String) (is_active : Option Bool)
    (category : Option String) (now : Int) : Except ErrorCode Property :=
  if owner_nft_account.mint = property.nft_mint then
   if owner_nft_account.owner = owner then
    if owner_nft_account.amount = 1 then
      match apply_price property price with
      | Except.error e => Except.error e
      | Except.ok p1 =>
        match apply_metadata_uri p1 metadata_uri with
        | Except.error e => Except.error e
        | Except.ok p2 =>
          match apply_category (apply_is_active p2 is_active) category with
          | Except.error e => Except.error e
          | Except.ok p4 => Except.ok { p4 with updated_at := now }
    else Except.error .notNFTOwner
   else Except.error .invalidTokenAccountOwner
  else Except.error .invalidNFTTokenAccount

/-- `make_offer` (lib.rs lines 228-262): requires an active property, a
positive amount and a future expiration, then fills the freshly created
`Offer` in `Pending`.  The `MakeOffer` account list (lib.rs lines 585-604)
contains no token accounts and the program has no `Escrow` account type,
so no funds move; `buyerSpendable` threads the buyer's spendable token
balance through the call to make that frame explicit. -/
def make_offer (property : Property) (propertyKey : Nat) (buyer : Nat)
    (offer_amount : Nat) (expiration_time : Int) (now : Int)
    (buyerSpendable : Nat) : Except ErrorCode (Offer × Nat) :=
  if property.is_active then
   if 0 < offer_amount then
    if now < expiration_time then
      Except.ok
        ({ buyer := buyer
           property := propertyKey
           amount := offer_amount
           status := .pending
           created_at := now
           updated_at := now
           expiration_time := expiration_time }, buyerSpendable)
    else Except.error .invalidExpirationTime
   else Except.error .invalidOfferAmount
  else Except.error .propertyNotActive

/-- Result of `respond_to_offer`: the account states after the handler
body ran, plus `err` (`none` = `Ok(())`).  On the expired path the source
mutates the offer and then returns `Err`, so the mutation is visible here
alongside the error. -/
structure RespondResult where
  property : Property
  offer : Offer
  buyerSpendable : Nat
  err : Option ErrorCode
deriving Repr, DecidableEq

/-- `respond_to_offer` (lib.rs lines 264-311): requires `Pending`; an
expired offer is flipped to `Expired` and the call fails `OfferExpired`;
otherwise the status becomes `Accepted` or `Rejected`.  The
`RespondToOffer` account list (lib.rs lines 606-620) is property, offer
and the owner signer only — no token accounts — so `property` and
`buyerSpendable` pass through untouched (the handler never writes the
property). -/
def respond_to_offer (property : Property) (offer : Offer) (accept : Bool)
    (now : Int) (buyerSpendable : Nat) : RespondResult :=
  if offer.status = .pending then
    if offer.expiration_time ≤ now then
      { property := property
        offer := { offer with status := .expired, updated_at := now }
        buyerSpendable := buyerSpendable
        err := some .offerExpired }
    else if accept then
      { property := property
        offer := { offer with status := .accepted, updated_at := now }
        buyerSpendable := buyerSpendable
        err := none }
    else
      { property := property
        offer := { offer with status := .rejected, updated_at := now }
        buyerSpendable := buyerSpendable
        err := none }
  else
    { property := property
      offer := offer
      buyerSpendable := buyerSpendable
      err := some .offerNotPending }

/-- `withdraw_fees` (lib.rs lines 313-362): authority check, balance
check, fee-token-mint checks on both token accounts, token transfer,
checked decrement of `total_fees`. -/
def withdraw_fees (marketplace : Marketplace) (caller : Nat)
    (fee_account authority_token_account : TokenAccount) (amount : Nat) :
    Except ErrorCode (Marketplace × TokenAccount × TokenAccount) :=
  if marketplace.authority = caller then
   if amount ≤ marketplace.total_fees then
    if fee_account.mint = marketplace.fee_token_mint then
     if authority_token_account.mint = marketplace.fee_token_mint then
       match spl_transfer fee_account authority_token_account amount with
       | none => Except.error .splTokenError
       | some (fa, ata) =>
         match checked_sub marketplace.total_fees amount with
         | none => Except.error .arithmeticOverflow
         | some tf =>
           Except.ok ({ marketplace with total_fees := tf }, fa, ata)
     else Except.error .invalidFeeTokenAccount
    else Except.error .invalidFeeTokenAccount
   else Except.error .insufficientFeeBalance
  else Except.error .unauthorizedFeeWithdrawal

/-- Result of a successful `execute_sale`: every mutated account. -/
structure ExecuteSaleResult where
  marketplace : Marketplace
  property : Property
  offer : Offer
  transaction_history : TransactionHistory
  buyer_token_account : TokenAccount
  seller_token_account : TokenAccount
  marketplace_fee_account : TokenAccount
  seller_nft_account : TokenAccount
  buyer_nft_account : TokenAccount
deriving Repr, DecidableEq

/-- `execute_sale` (lib.rs lines 364-494): requires an `Accepted` offer
matching the property, validates the five token accounts, computes
`fee_amount = offer.amount * fee_percentage / 10000` and
`seller_amount = offer.amount - fee_amount` with checked arithmetic, then
performs the two payment transfers and the NFT transfer, flips the
property, accrues the fee into `total_fees`, appends the
`TransactionHistory` record and marks the offer `Completed`. -/
def execute_sale (marketplace : Marketplace) (property : Property)
    (offer : Offer) (propertyKey : Nat)
    (bta sta mfa sna bna : TokenAccount) (now : Int) :
    Except ErrorCode ExecuteSaleResult :=
  if offer.status = .accepted then
   if offer.property = propertyKey then
    if bta.mint = marketplace.fee_token_mint then
     if sta.mint = marketplace.fee_token_mint then
      if mfa.mint = marketplace.fee_token_mint then
       if sna.mint = property.nft_mint then
        if bna.mint = property.nft_mint then
         if sna.amount = 1 then
          match checked_mul offer.amount marketplace.fee_percentage with
          | none => Except.error .arithmeticOverflow
          | some prod =>
            match checked_div prod 10000 with
            | none => Except.error .arithmeticOverflow
            | some fee_amount =>
              match checked_sub offer.amount fee_amount with
              | none => Except.error .arithmeticOverflow
              | some seller_amount =>
                match spl_transfer bta sta seller_amount with
                | none => Except.error .splTokenError
                | some (bta1, sta1) =>
                  match spl_transfer bta1 mfa fee_amount with
                  | none => Except.error .splTokenError
                  | some (bta2, mfa1) =>
                    match spl_transfer sna bna 1 with
                    | none => Except.error .splTokenError
                    | some (sna1, bna1) =>
                      match checked_add property.transaction_count 1 with
                      | none => Except.error .arithmeticOverflow
                      | some new_count =>
                        match checked_add marketplace.total_fees fee_amount with
                        | none => Except.error .arithmeticOverflow
                        | some new_fees =>
                          Except.ok
                            { marketplace :=
                                { marketplace with total_fees := new_fees }
                              property :=
                                { property with
                                  owner := offer.buyer
                                  price := offer.amount
                                  is_active := false
                                  updated_at := now
                                  transaction_count := new_count }
                              offer :=
                                { offer with
                                  status := .completed
                                  updated_at := now }
                              transaction_history :=
                                { property := propertyKey
                                  seller := property.owner
                                  buyer := offer.buyer
                                  price := offer.amount
                                  timestamp := now
                                  transaction_index := new_count }
                              buyer_token_account := bta2
                              seller_token_account := sta1
                              marketplace_fee_account := mfa1
                              seller_nft_account := sna1
                              buyer_nft_account := bna1 }
         else Except.error .notNFTOwner
        else Except.error .invalidNFTTokenAccount
       else Except.error .invalidNFTTokenAccount
      else Except.error .invalidFeeTokenAccount
     else Except.error .invalidPaymentTokenMint
    else Except.error .invalidPaymentTokenMint
   else Except.error .offerPropertyMismatch
  else Except.error .offerNotAccepted

/-! Concrete fixtures, used by witness and counterexample theorems.  They
realize the spec's worked example: `fee_percentage = 250`, offer amount
1000, so `fee = 25` and the seller receives 975. -/

def mW : Marketplace :=
  { authority := 1, properties_count := 1, fee_percentage := 250, fee_token_mint := 10, total_fees := 0 }

def pW : Property :=
  { marketplace := 100, owner := 2, property_id := "prop1", price := 1000, metadata_uri := "uri", location := "loc", square_feet := 50, bedrooms := 2, bathrooms := 1, is_active := true, created_at := 0, updated_at := 0, transaction_count := 0, nft_mint := 77, category := "res" }

def oW : Offer :=
  { buyer := 3, property := 500, amount := 1000, status := .accepted, created_at := 1, updated_at := 1, expiration_time := 1000 }

def btaW : TokenAccount := { mint := 10, owner := 3, amount := 2000 }

def staW : TokenAccount := { mint := 10, owner := 2, amount := 0 }

def mfaW : TokenAccount := { mint := 10, owner := 1, amount := 0 }

def snaW : TokenAccount := { mint := 77, owner := 2, amount := 1 }

def bnaW : TokenAccount := { mint := 77, owner := 3, amount := 0 }

/-- The result of `execute_sale` on the fixture accounts. -/
def saleResultW : ExecuteSaleResult :=
  { marketplace := { mW with total_fees := 25 }
    property := { pW with
                  owner := 3
                  price := 1000
                  is_active := false
                  updated_at := 5
                  transaction_count := 1 }
    offer := { oW with status := .completed, updated_at := 5 }
    transaction_history :=
      { property := 500, seller := 2, buyer := 3, price := 1000, timestamp := 5, transaction_index := 1 }
    buyer_token_account := { btaW with amount := 1000 }
    seller_token_account := { staW with amount := 975 }
    marketplace_fee_account := { mfaW with amount := 25 }
    seller_nft_account := { snaW with amount := 0 }
    buyer_nft_account := { bnaW with amount := 1 } }

/-- A pending, non-expired offer on the fixture property. -/
def oP : Offer :=
  { buyer := 3, property := 500, amount := 1000, status := .pending, created_at := 1, updated_at := 1, expiration_time := 30 }

/-- A pending offer (amount 5) whose expiration time 3 is already past. -/
def oE : Offer :=
  { buyer := 3, property := 500, amount := 5, status := .pending, created_at := 1, updated_at := 1, expiration_time := 3 }

/-- The fixture marketplace with 100 accrued fees. -/
def mWfees : Marketplace := { mW with total_fees := 100 }

/-- A fee-collection token account with the correct fee token mint. -/
def faG : TokenAccount := { mint := 10, owner := 9, amount := 100 }

/-- A fee-collection token account with the WRONG mint (99, not 10). -/
def faBad : TokenAccount := { mint := 99, owner := 9, amount := 100 }

/-- The authority's token account with the correct fee token mint. -/
def ataG : TokenAccount := { mint := 10, owner := 1, amount := 0 }

/-- The property created by the fixture `list_property` call. -/
def pL2 : Property :=
  { marketplace := 100, owner := 2, property_id := "p2", price := 500, metadata_uri := "u", location := "l", square_feet := 10, bedrooms := 1, bathrooms := 1, is_active := true, created_at := 0, updated_at := 0, transaction_count := 0, nft_mint := 77, category := "cat" }

/-! Inversion helpers for the checked primitives. -/

theorem checked_add_some {a b c : Nat} (h : checked_add a b = some c) :
    c = a + b ∧ a + b < U64_MOD := by
  unfold checked_add at h
  split at h
  · exact ⟨(Option.some.injEq _ _).mp h.symm, by assumption⟩
  · exact (Option.noConfusion h)

theorem checked_sub_some {a b c : Nat} (h : checked_sub a b = some c) :
    c = a - b ∧ b ≤ a := by
  unfold checked_sub at h
  split at h
  · exact ⟨(Option.some.injEq _ _).mp h.symm, by assumption⟩
  · exact (Option.noConfusion h)

theorem checked_mul_some {a b c : Nat} (h : checked_mul a b = some c) :
    c = a * b ∧ a * b < U64_MOD := by
  unfold checked_mul at h
  split at h
  · exact ⟨(Option.some.injEq _ _).mp h.symm, by assumption⟩
  · exact (Option.noConfusion h)

theorem checked_div_some {a b c : Nat} (h : checked_div a b = some c) :
    c = a / b := by
  unfold checked_div at h
  split at h
  · exact (Option.noConfusion h)
  · exact (Option.some.injEq _ _).mp h.symm

theorem spl_transfer_some {s d s' d' : TokenAccount} {amt : Nat}
    (h : spl_transfer s d amt = some (s', d')) :
    s' = { s with amount := s.amount - amt } ∧
    d' = { d with amount := d.amount + amt } ∧
    amt ≤ s.amount ∧ d.amount + amt < U64_MOD := by
  unfold spl_transfer at h
  split at h
  · rename_i hc
    have h2 := (Option.some.injEq _ _).mp h
    exact ⟨congrArg Prod.fst h2.symm, congrArg Prod.snd h2.symm, hc.1, hc.2⟩
  · exact (Option.noConfusion h)

/-- Inversion of a successful `execute_sale`: the guard facts and the
exact final state.  `o.amount * m.fee_percentage / 10000` is the fee the
source computes. -/
theorem execute_sale_ok_elim
    (m : Marketplace) (p : Property) (o : Offer) (key : Nat)
    (bta sta mfa sna bna : TokenAccount) (now : Int) (r : ExecuteSaleResult)
    (h : execute_sale m p o key bta sta mfa sna bna now = Except.ok r) :
    o.status = .accepted ∧ o.property = key ∧ sna.amount = 1 ∧
    o.amount * m.fee_percentage < U64_MOD ∧
    o.amount * m.fee_percentage / 10000 ≤ o.amount ∧
    r = { marketplace :=
            { m with total_fees := m.total_fees + o.amount * m.fee_percentage / 10000 }
          property :=
            { p with
              owner := o.buyer
              price := o.amount
              is_active := false
              updated_at := now
              transaction_count := p.transaction_count + 1 }
          offer := { o with status := .completed, updated_at := now }
          transaction_history :=
            { property := key
              seller := p.owner
              buyer := o.buyer
              price := o.amount
              timestamp := now
              transaction_index := p.transaction_count + 1 }
          buyer_token_account :=
            { bta with amount := bta.amount - (o.amount - o.amount * m.fee_percentage / 10000) - o.amount * m.fee_percentage / 10000 }
          seller_token_account :=
            { sta with amount := sta.amount + (o.amount - o.amount * m.fee_percentage / 10000) }
          marketplace_fee_account :=
            { mfa with amount := mfa.amount + o.amount * m.fee_percentage / 10000 }
          seller_nft_account := { sna with amount := sna.amount - 1 }
          buyer_nft_account := { bna with amount := bna.amount + 1 } } := by
  unfold execute_sale at h
  repeat' split at h
  any_goals exact (Except.noConfusion h)
  rename_i h1 h2 h3 h4 h5 h6 h7 h8 x7 prod heq1 x6 fee_amount heq2 x5 seller_amount heq3 x4 bta1 sta1 heq4 x3 bta2 mfa1 heq5 x2 sna1 bna1 heq6 x1 new_count heq7 x0 new_fees heq8
  obtain ⟨hprod, hlt⟩ := checked_mul_some heq1
  subst hprod
  have hfee := checked_div_some heq2
  subst hfee
  obtain ⟨hsell, hle⟩ := checked_sub_some heq3
  subst hsell
  obtain ⟨hb1, hs1, _, _⟩ := spl_transfer_some heq4
  subst hb1; subst hs1
  obtain ⟨hb2, hm1, _, _⟩ := spl_transfer_some heq5
  subst hb2; subst hm1
  obtain ⟨hs2, hb3, _, _⟩ := spl_transfer_some heq6
  subst hs2; subst hb3
  obtain ⟨hc, _⟩ := checked_add_some heq7
  subst hc
  obtain ⟨hf, _⟩ := checked_add_some heq8
  subst hf
  have hr := (Except.ok.injEq _ _).mp h
  subst hr
  exact ⟨h1, h2, h8, hlt, hle, rfl⟩

/-- C1: for every sale completed by `execute_sale`, with
`fee_percentage ≤ 10000`, the fee credited to the marketplace fee account
equals `floor(offer.amount * marketplace.fee_percentage / 10000)`, the
seller is credited `offer.amount - fee`, and `seller_amount + fee`
equals `offer.amount` exactly. -/
theorem execute_sale_fee_conservation
    (m : Marketplace) (p : Property) (o : Offer) (key : Nat)
    (bta sta mfa sna bna : TokenAccount) (now : Int) (r : ExecuteSaleResult)
    (hfp : m.fee_percentage ≤ 10000)
    (h : execute_sale m p o key bta sta mfa sna bna now = Except.ok r) :
    r.marketplace_fee_account.amount =
        mfa.amount + o.amount * m.fee_percentage / 10000 ∧
    r.seller_token_account.amount =
        sta.amount + (o.amount - o.amount * m.fee_percentage / 10000) ∧
    (o.amount - o.amount * m.fee_percentage / 10000) +
        o.amount * m.fee_percentage / 10000 = o.amount := by
  obtain ⟨-, -, -, -, hle, hr⟩ :=
    execute_sale_ok_elim m p o key bta sta mfa sna bna now r h
  subst hr
  exact ⟨rfl, rfl, Nat.sub_add_cancel hle⟩

/-- C1 witness: the fixture sale (fee 250 bp on amount 1000) realizes the
hypotheses; fee 25, seller credit 975, and 975 + 25 = 1000. -/
theorem execute_sale_fee_conservation_witness :
    saleResultW.marketplace_fee_account.amount =
        mfaW.amount + oW.amount * mW.fee_percentage / 10000 ∧
    saleResultW.seller_token_account.amount =
        staW.amount + (oW.amount - oW.amount * mW.fee_percentage / 10000) ∧
    (oW.amount - oW.amount * mW.fee_percentage / 10000) +
        oW.amount * mW.fee_percentage / 10000 = oW.amount :=
  execute_sale_fee_conservation mW pW oW 500 btaW staW mfaW snaW bnaW 5
    saleResultW (by decide) rfl

/-- C6: after every successful settlement, the property's owner is the
buyer, its price is the offer amount, it is inactive, its transaction
count is incremented by one, `total_fees` grew by the fee, the offer is
`Completed`, and the transaction-history record captures the previous
owner as seller, the buyer, the sale price and the timestamp. -/
theorem execute_sale_settlement_postconditions
    (m : Marketplace) (p : Property) (o : Offer) (key : Nat)
    (bta sta mfa sna bna : TokenAccount) (now : Int) (r : ExecuteSaleResult)
    (h : execute_sale m p o key bta sta mfa sna bna now = Except.ok r) :
    r.property.owner = o.buyer ∧
    r.property.price = o.amount ∧
    r.property.is_active = false ∧
    r.property.transaction_count = p.transaction_count + 1 ∧
    r.marketplace.total_fees =
        m.total_fees + o.amount * m.fee_percentage / 10000 ∧
    r.offer.status = .completed ∧
    r.transaction_history =
      { property := key
        seller := p.owner
        buyer := o.buyer
        price := o.amount
        timestamp := now
        transaction_index := p.transaction_count + 1 } := by
  obtain ⟨-, -, -, -, -, hr⟩ :=
    execute_sale_ok_elim m p o key bta sta mfa sna bna now r h
  subst hr
  exact ⟨rfl, rfl, rfl, rfl, rfl, rfl, rfl⟩

/-- C6 witness: the spec's worked example — fee 25, `total_fees` 25,
owner flipped to the buyer, transaction count 1, history price 1000. -/
theorem execute_sale_settlement_postconditions_witness :
    saleResultW.property.owner = oW.buyer ∧
    saleResultW.property.price = oW.amount ∧
    saleResultW.property.is_active = false ∧
    saleResultW.property.transaction_count = pW.transaction_count + 1 ∧
    saleResultW.marketplace.total_fees =
        mW.total_fees + oW.amount * mW.fee_percentage / 10000 ∧
    saleResultW.offer.status = .completed ∧
    saleResultW.transaction_history =
      { property := 500
        seller := pW.owner
        buyer := oW.buyer
        price := oW.amount
        timestamp := 5
        transaction_index := pW.transaction_count + 1 } :=
  execute_sale_settlement_postconditions mW pW oW 500 btaW staW mfaW snaW
    bnaW 5 saleResultW rfl

/-- C10: with `fee_percentage ≤ 10000`, whenever the checked
multiplication `offer.amount * fee_percentage` succeeds, the division by
the constant 10000 succeeds, the resulting fee is at most the amount, and
the checked subtraction `offer.amount - fee` succeeds — the
`ArithmeticOverflow` branches of the fee division and subtraction in
`execute_sale` are unreachable. -/
theorem sale_fee_le_amount (amount fp prod : Nat) (hfp : fp ≤ 10000)
    (hmul : checked_mul amount fp = some prod) :
    checked_div prod 10000 = some (prod / 10000) ∧
    prod / 10000 ≤ amount ∧
    checked_sub amount (prod / 10000) = some (amount - prod / 10000) := by
  obtain ⟨hp, -⟩ := checked_mul_some hmul
  subst hp
  have hle : amount * fp / 10000 ≤ amount := by
    calc amount * fp / 10000
        ≤ amount * 10000 / 10000 :=
          Nat.div_le_div_right (Nat.mul_le_mul_left amount hfp)
      _ = amount := by simp
  refine ⟨by unfold checked_div; simp, hle, by unfold checked_sub; rw [if_pos hle]⟩

/-- C10 witness: amount 1000 at 250 bp — the product 250000 divides to
fee 25 ≤ 1000 and the subtraction succeeds with 975. -/
theorem sale_fee_le_amount_witness :
    checked_div 250000 10000 = some (250000 / 10000) ∧
    250000 / 10000 ≤ 1000 ∧
    checked_sub 1000 (250000 / 10000) = some (1000 - 250000 / 10000) :=
  sale_fee_le_amount 1000 250 250000 (by decide) (by decide)

/-- C2 counterexample: at a concrete input `make_offer` succeeds, the
whole result is the Pending offer plus the buyer's untouched spendable
balance (100, not 100 - 5 as moving 5 into escrow would require) — no
funds move and no escrow record is produced; the program has no `Escrow`
account type at all. -/
theorem make_offer_moves_no_funds_cex :
    make_offer pW 500 3 5 20 10 100 =
      Except.ok ({ buyer := 3
                   property := 500
                   amount := 5
                   status := .pending
                   created_at := 10
                   updated_at := 10
                   expiration_time := 20 }, 100) ∧
    (100 : Nat) ≠ 100 - 5 :=
  ⟨rfl, by decide⟩

/-- C2 amended: every successful `make_offer(amount, expiration_time)`
creates the Offer in Pending with the given buyer, property, amount and
expiration and timestamps set to now; it moves no funds — the buyer's
spendable balance is returned unchanged — and creates no escrow, because
the instruction's account list has no token accounts and the program has
no Escrow record. -/
theorem make_offer_creates_pending_offer
    (p : Property) (key buyer amount : Nat) (exp now : Int) (bal : Nat)
    (hact : p.is_active = true) (hamt : 0 < amount) (hexp : now < exp) :
    make_offer p key buyer amount exp now bal =
      Except.ok ({ buyer := buyer
                   property := key
                   amount := amount
                   status := .pending
                   created_at := now
                   updated_at := now
                   expiration_time := exp }, bal) := by
  unfold make_offer
  rw [hact]
  rw [if_pos rfl, if_pos hamt, if_pos hexp]

/-- C2 witness: the amended statement at the fixture input. -/
theorem make_offer_creates_pending_offer_witness :
    make_offer pW 500 3 5 20 10 100 =
      Except.ok ({ buyer := 3
                   property := 500
                   amount := 5
                   status := .pending
                   created_at := 10
                   updated_at := 10
                   expiration_time := 20 }, 100) :=
  make_offer_creates_pending_offer pW 500 3 5 20 10 100 rfl (by decide) (by decide)

/-- C3 counterexample: `respond_to_offer` on an expired Pending offer
(amount 5) fails `OfferExpired` and flips the status to Expired, but the
buyer's balance stays 100 — it is NOT credited back the offer amount
(there was never an escrow debit to refund, and the instruction has no
token accounts), and no escrow record exists to deactivate. -/
theorem respond_expired_no_refund_cex :
    (respond_to_offer pW oE true 10 100).err = some .offerExpired ∧
    (respond_to_offer pW oE true 10 100).offer.status = .expired ∧
    (respond_to_offer pW oE true 10 100).buyerSpendable = 100 ∧
    (respond_to_offer pW oE true 10 100).buyerSpendable ≠ 100 + oE.amount :=
  ⟨rfl, rfl, rfl, by decide⟩

/-- C3 amended: `respond_to_offer` on a Pending offer whose
`expiration_time ≤ now` fails with `OfferExpired` while the handler's
mutation is visible in the resulting account state — status Expired (not
Completed) and `updated_at = now`; the property and the buyer's balance
are untouched, and no funds move (the program has no escrow to refund
from). -/
theorem respond_expired_terminal
    (p : Property) (o : Offer) (accept : Bool) (now : Int) (bal : Nat)
    (hpend : o.status = .pending) (hexp : o.expiration_time ≤ now) :
    respond_to_offer p o accept now bal =
      { property := p
        offer := { o with status := .expired, updated_at := now }
        buyerSpendable := bal
        err := some .offerExpired } := by
  unfold respond_to_offer
  rw [if_pos hpend, if_pos hexp]

/-- C3 witness: the amended statement at the expired fixture offer. -/
theorem respond_expired_terminal_witness :
    respond_to_offer pW oE true 10 100 =
      { property := pW
        offer := { oE with status := .expired, updated_at := 10 }
        buyerSpendable := 100
        err := some .offerExpired } :=
  respond_expired_terminal pW oE true 10 100 rfl (by decide)

/-- C4: `respond_to_offer` settles an offer at most once.  Any call on an
offer whose status is not Pending fails `OfferNotPending` and leaves every
account and balance unchanged, and after any successful call the
resulting offer is no longer Pending, so a second call on it — with any
accept flag — fails `OfferNotPending` with no further state change (and
`respond_to_offer` performs no transfers in any case). -/
theorem respond_at_most_once
    (p : Property) (o : Offer) (accept : Bool) (now : Int) (bal : Nat) :
    (o.status ≠ .pending →
       respond_to_offer p o accept now bal =
         { property := p
           offer := o
           buyerSpendable := bal
           err := some .offerNotPending }) ∧
    ((respond_to_offer p o accept now bal).err = none →
       ∀ (p2 : Property) (accept2 : Bool) (now2 : Int) (bal2 : Nat),
         respond_to_offer p2 (respond_to_offer p o accept now bal).offer
             accept2 now2 bal2 =
           { property := p2
             offer := (respond_to_offer p o accept now bal).offer
             buyerSpendable := bal2
             err := some .offerNotPending }) := by
  have key : ∀ (q : Property) (u : Offer) (a : Bool) (n : Int) (b : Nat),
      u.status ≠ .pending →
      respond_to_offer q u a n b =
        { property := q, offer := u, buyerSpendable := b, err := some .offerNotPending } := by
    intro q u a n b hne
    unfold respond_to_offer
    rw [if_neg hne]
  refine ⟨key p o accept now bal, ?_⟩
  intro herr p2 a2 n2 b2
  apply key
  unfold respond_to_offer at herr ⊢
  split_ifs at herr ⊢ with h1 h2 h3
  · exact fun hc => OfferStatus.noConfusion hc
  · exact fun hc => OfferStatus.noConfusion hc

/-- C4 witness: a second acceptance on an already-accepted fixture offer
fails `OfferNotPending` and changes nothing; likewise after a successful
first `respond_to_offer` on the pending fixture offer. -/
theorem respond_at_most_once_witness :
    respond_to_offer pW { oP with status := .accepted } true 6 100 =
      { property := pW
        offer := { oP with status := .accepted }
        buyerSpendable := 100
        err := some .offerNotPending } ∧
    respond_to_offer pW (respond_to_offer pW oP true 5 100).offer false 6 50 =
      { property := pW
        offer := (respond_to_offer pW oP true 5 100).offer
        buyerSpendable := 50
        err := some .offerNotPending } :=
  ⟨(respond_at_most_once pW { oP with status := .accepted } true 6 100).1 (by decide),
   (respond_at_most_once pW oP true 5 100).2 rfl pW false 6 50⟩

/-- C5 counterexample: accepting the pending, non-expired fixture offer
succeeds but performs no settlement: the offer ends Accepted (not
Completed, as the inline §4.3 settlement's step 7 would leave it), the
property — owner included — is untouched, and the buyer's balance is
unchanged. -/
theorem respond_accept_no_settlement_cex :
    respond_to_offer pW oP true 5 100 =
      { property := pW
        offer := { oP with status := .accepted, updated_at := 5 }
        buyerSpendable := 100
        err := none } ∧
    OfferStatus.accepted ≠ OfferStatus.completed ∧
    pW.owner ≠ oP.buyer :=
  ⟨rfl, by decide, by decide⟩

/-- C5 amended: `respond_to_offer(accept = true)` on a non-expired
Pending offer only transitions the offer to Accepted (touching
`updated_at`) and succeeds; the fund split, NFT transfer, property flip
and history append of §4.3 happen only in the separate `execute_sale`
instruction, which requires the Accepted status this call produces. -/
theorem respond_accept_only_marks_accepted
    (p : Property) (o : Offer) (now : Int) (bal : Nat)
    (hpend : o.status = .pending) (hexp : now < o.expiration_time) :
    respond_to_offer p o true now bal =
      { property := p
        offer := { o with status := .accepted, updated_at := now }
        buyerSpendable := bal
        err := none } := by
  unfold respond_to_offer
  rw [if_pos hpend, if_neg (not_le.mpr hexp), if_pos rfl]

/-- C5 witness: the amended statement at the pending fixture offer. -/
theorem respond_accept_only_marks_accepted_witness :
    respond_to_offer pW oP true 5 100 =
      { property := pW
        offer := { oP with status := .accepted, updated_at := 5 }
        buyerSpendable := 100
        err := none } :=
  respond_accept_only_marks_accepted pW oP 5 100 rfl (by decide)

/-- C7 counterexample: a `withdraw_fees` call by the correct authority
with `amount ≤ total_fees` can still fail — here the fee account's mint
(99) differs from the marketplace's fee token mint (10), so the call
fails `InvalidFeeTokenAccount` instead of succeeding. -/
theorem withdraw_fees_mint_check_cex :
    mWfees.authority = 1 ∧
    5 ≤ mWfees.total_fees ∧
    withdraw_fees mWfees 1 faBad ataG 5 =
      Except.error .invalidFeeTokenAccount :=
  ⟨rfl, by decide, rfl⟩

/-- C7 amended: `withdraw_fees(amount)` fails `UnauthorizedFeeWithdrawal`
when the caller is not the authority; fails `InsufficientFeeBalance`
(leaving state untouched) when `amount > total_fees`; and succeeds with
`total_fees` decremented by exactly `amount` provided additionally both
token accounts carry the marketplace's fee token mint and the token
transfer itself succeeds. -/
theorem withdraw_fees_behavior
    (m : Marketplace) (caller : Nat) (fa ata : TokenAccount) (amount : Nat) :
    (m.authority ≠ caller →
       withdraw_fees m caller fa ata amount =
         Except.error .unauthorizedFeeWithdrawal) ∧
    (m.authority = caller → m.total_fees < amount →
       withdraw_fees m caller fa ata amount =
         Except.error .insufficientFeeBalance) ∧
    (m.authority = caller → amount ≤ m.total_fees →
       fa.mint = m.fee_token_mint → ata.mint = m.fee_token_mint →
       amount ≤ fa.amount → ata.amount + amount < U64_MOD →
       withdraw_fees m caller fa ata amount =
         Except.ok ({ m with total_fees := m.total_fees - amount },
                    { fa with amount := fa.amount - amount },
                    { ata with amount := ata.amount + amount })) := by
  refine ⟨?_, ?_, ?_⟩
  · intro h
    unfold withdraw_fees
    rw [if_neg h]
  · intro h hlt
    unfold withdraw_fees
    rw [if_pos h, if_neg (not_le.mpr hlt)]
  · intro h hle hfa hata hbal hovf
    unfold withdraw_fees
    rw [if_pos h, if_pos hle, if_pos hfa, if_pos hata]
    unfold spl_transfer
    rw [if_pos ⟨hbal, hovf⟩]
    unfold checked_sub
    rw [if_pos hle]

/-- C7 witness: the three amended branches at concrete inputs — wrong
caller, over-withdrawal, and a clean withdrawal of 40 out of 100. -/
theorem withdraw_fees_behavior_witness :
    withdraw_fees mWfees 4 faG ataG 5 =
      Except.error .unauthorizedFeeWithdrawal ∧
    withdraw_fees mWfees 1 faG ataG 101 =
      Except.error .insufficientFeeBalance ∧
    withdraw_fees mWfees 1 faG ataG 40 =
      Except.ok ({ mWfees with total_fees := mWfees.total_fees - 40 },
                 { faG with amount := faG.amount - 40 },
                 { ataG with amount := ataG.amount + 40 }) :=
  ⟨(withdraw_fees_behavior mWfees 4 faG ataG 5).1 (by decide),
   (withdraw_fees_behavior mWfees 1 faG ataG 101).2.1 rfl (by decide),
   (withdraw_fees_behavior mWfees 1 faG ataG 40).2.2 rfl (by decide)
     rfl rfl (by decide) (by decide)⟩

/-- C8: `fee_percentage ≤ 10000` is an invariant.
`initialize_marketplace` rejects `fee_percentage > 10000` with
`InvalidFeePercentage` and otherwise (10000 included) creates the record
with `properties_count = 0` and `total_fees = 0`; and no other operation
that touches the marketplace — `list_property`, `withdraw_fees`,
`execute_sale` — changes `fee_percentage` (the remaining operations never
touch the Marketplace account at all). -/
theorem fee_percentage_invariant :
    (∀ a fp mint, 10000 < fp →
       initialize_marketplace a fp mint =
         Except.error .invalidFeePercentage) ∧
    (∀ a fp mint, fp ≤ 10000 →
       initialize_marketplace a fp mint =
         Except.ok { authority := a
                     properties_count := 0
                     fee_percentage := fp
                     fee_token_mint := mint
                     total_fees := 0 }) ∧
    (∀ m mk ow nm ona pid pr mu loc sf bd bt cat now res,
       list_property m mk ow nm ona pid pr mu loc sf bd bt cat now =
           Except.ok res →
       res.1.fee_percentage = m.fee_percentage) ∧
    (∀ m caller fa ata amt res,
       withdraw_fees m caller fa ata amt = Except.ok res →
       res.1.fee_percentage = m.fee_percentage) ∧
    (∀ m p o key bta sta mfa sna bna now r,
       execute_sale m p o key bta sta mfa sna bna now = Except.ok r →
       r.marketplace.fee_percentage = m.fee_percentage) := by
  refine ⟨?_, ?_, ?_, ?_, ?_⟩
  · intro a fp mint h
    unfold initialize_marketplace
    rw [if_neg (not_le.mpr h)]
  · intro a fp mint h
    unfold initialize_marketplace
    rw [if_pos h]
  · intro m mk ow nm ona pid pr mu loc sf bd bt cat now res h
    unfold list_property at h
    repeat' split at h
    any_goals exact (Except.noConfusion h)
    have hr := (Except.ok.injEq _ _).mp h
    subst hr
    rfl
  · intro m caller fa ata amt res h
    unfold withdraw_fees at h
    repeat' split at h
    any_goals exact (Except.noConfusion h)
    have hr := (Except.ok.injEq _ _).mp h
    subst hr
    rfl
  · intro m p o key bta sta mfa sna bna now r h
    obtain ⟨-, -, -, -, -, hr⟩ :=
      execute_sale_ok_elim m p o key bta sta mfa sna bna now r h
    subst hr
    rfl

/-- C8 witness: 10001 bp rejected; 10000 bp accepted with zeroed
counters; and each of the three marketplace-touching operations, run
successfully on the fixtures, leaves `fee_percentage` at 250. -/
theorem fee_percentage_invariant_witness :
    initialize_marketplace 7 10001 3 =
      Except.error .invalidFeePercentage ∧
    initialize_marketplace 7 10000 3 =
      Except.ok { authority := 7
                  properties_count := 0
                  fee_percentage := 10000
                  fee_token_mint := 3
                  total_fees := 0 } ∧
    (({ mW with properties_count := 2 }, pL2,
        ({ mint := 77, owner := 2, amount := 1 } : TokenAccount)) :
        Marketplace × Property × TokenAccount).1.fee_percentage =
      mW.fee_percentage ∧
    (({ mWfees with total_fees := 60 }, { faG with amount := 60 },
        { ataG with amount := 40 }) :
        Marketplace × TokenAccount × TokenAccount).1.fee_percentage =
      mWfees.fee_percentage ∧
    saleResultW.marketplace.fee_percentage = mW.fee_percentage :=
  ⟨fee_percentage_invariant.1 7 10001 3 (by decide),
   fee_percentage_invariant.2.1 7 10000 3 (by decide),
   fee_percentage_invariant.2.2.1 mW 100 2 77
     { mint := 77, owner := 2, amount := 0 } "p2" 500 "u" "l" 10 1 1 "cat" 0 _ rfl,
   fee_percentage_invariant.2.2.2.1 mWfees 1 faG ataG 40 _ rfl,
   fee_percentage_invariant.2.2.2.2 mW pW oW 500 btaW staW mfaW snaW bnaW 5
     saleResultW rfl⟩

/-- C9 counterexample: on the fixture property (`updated_at = 0`), an
all-`None` `update_property` by the NFT-holding owner at time 5 succeeds
but returns the property with `updated_at = 5 ≠ 0` — the record is not
left entirely unchanged. -/
theorem update_property_noop_touches_updated_at_cex :
    pW.updated_at = 0 ∧
    update_property pW 2 snaW none none none none 5 =
      Except.ok { pW with updated_at := 5 } ∧
    (5 : Int) ≠ 0 :=
  ⟨rfl, rfl, by decide⟩

/-- C9 amended: `update_property` by the NFT-holding owner with all
optional fields absent succeeds and leaves every Property field unchanged
EXCEPT `updated_at`, which is always set to the current timestamp. -/
theorem update_property_noop_only_updated_at
    (p : Property) (owner : Nat) (ona : TokenAccount) (now : Int)
    (hm : ona.mint = p.nft_mint) (ho : ona.owner = owner)
    (ha : ona.amount = 1) :
    update_property p owner ona none none none none now =
      Except.ok { p with updated_at := now } := by
  unfold update_property
  rw [if_pos hm, if_pos ho, if_pos ha]
  rfl

/-- C9 witness: the amended statement at the fixture property. -/
theorem update_property_noop_only_updated_at_witness :
    update_property pW 2 snaW none none none none 7 =
      Except.ok { pW with updated_at := 7 } :=
  update_property_noop_only_updated_at pW 2 snaW 7 rfl rfl rfl
